import Mathlib

set_option maxHeartbeats 1000000
set_option linter.unusedVariables false

/-!
Verification development for the SensAI assist pipeline.

The definitions below are a shallow embedding of the request handler in
`src/backend-clerk/src/routes/ai.ts` (the `POST /api/ai/assist` route),
the `requireAuth` middleware in `src/backend-clerk/src/middleware/clerk.ts`,
and — where noted — a model built from the specification for the Python
backend retry controller, whose code is not part of the repository snapshot.

External effects are represented by explicit parameters:
the outcome of the `fetch` to the Python backend, the wall-clock duration of
that call (the `AbortController` timer fires when it exceeds the timeout),
the runtime's abort-error message, and the outcome of the Gemini call.
-/

namespace SensAI

/-- JSON-ish values appearing in a request body field. `Option Json` models a
field that may be absent (`none` = the key is missing / `undefined`). -/
inductive Json where
  | str (s : String)
  | num (n : Int)
  | bool (b : Bool)
  | null
deriving DecidableEq, Repr

/-- The raw body of a `POST /api/ai/assist` request, before validation.
Fields mirror the keys read by `AssistRequestSchema` in `ai.ts`. -/
structure RawBody where
  action : Option Json
  problem_title : Option Json
  problem_description : Option Json
  user_code : Option Json
  language : Option Json
deriving DecidableEq, Repr

/-- Issue codes produced by the zod schema checks used in `ai.ts`. -/
inductive IssueCode where
  | invalidType
  | invalidEnumValue
  | tooSmall
deriving DecidableEq, Repr

/-- A field-level validation issue (element of `validationResult.error.issues`). -/
structure FieldIssue where
  code : IssueCode
  path : String
deriving DecidableEq, Repr

/-- The validated request data produced by `AssistRequestSchema.safeParse`. -/
structure AssistData where
  action : String
  problem_title : String
  problem_description : String
  user_code : String
  language : String
deriving DecidableEq, Repr

/-- `z.enum([...])`: the value must be a string belonging to the allowed list;
a non-string gives an invalid-type issue, a string outside the list an
invalid-enum-value issue, and a missing field an invalid-type (required) issue. -/
def checkEnumField (path : String) (v : Option Json) (allowed : List String) :
    Except FieldIssue String :=
  match v with
  | some (.str s) => if s ∈ allowed then .ok s else .error ⟨.invalidEnumValue, path⟩
  | some _ => .error ⟨.invalidType, path⟩
  | none => .error ⟨.invalidType, path⟩

/-- `z.string().min(1)`: a required string of length at least 1. -/
def checkRequiredString (path : String) (v : Option Json) : Except FieldIssue String :=
  match v with
  | some (.str s) => if 1 ≤ s.length then .ok s else .error ⟨.tooSmall, path⟩
  | some _ => .error ⟨.invalidType, path⟩
  | none => .error ⟨.invalidType, path⟩

/-- `z.string().optional().default(d)`: an absent field yields the default,
a present field must be a string (anything else, `null` included, is an
invalid-type issue). -/
def checkOptionalString (path : String) (v : Option Json) (dflt : String) :
    Except FieldIssue String :=
  match v with
  | none => .ok dflt
  | some (.str s) => .ok s
  | some _ => .error ⟨.invalidType, path⟩

/-- The issues contributed by one field check (zod collects issues across fields). -/
def issuesOf {α : Type} : Except FieldIssue α → List FieldIssue
  | .error e => [e]
  | .ok _ => []

/-- `AssistRequestSchema.safeParse` from `ai.ts`: check all five fields and
either return the parsed data or the collected list of field-level issues. -/
def safeParse (b : RawBody) : Except (List FieldIssue) AssistData :=
  match checkEnumField "action" b.action ["hint", "code"],
        checkRequiredString "problem_title" b.problem_title,
        checkRequiredString "problem_description" b.problem_description,
        checkOptionalString "user_code" b.user_code "",
        checkOptionalString "language" b.language "javascript" with
  | .ok a, .ok t, .ok d, .ok c, .ok l =>
      .ok { action := a, problem_title := t, problem_description := d,
            user_code := c, language := l }
  | ra, rt, rd, rc, rl =>
      .error (issuesOf ra ++ issuesOf rt ++ issuesOf rd ++ issuesOf rc ++ issuesOf rl)

/-- Whether an `Except` computation succeeded. -/
def isOkE {ε α : Type} : Except ε α → Bool
  | .ok _ => true
  | .error _ => false

/-- JavaScript string truthiness fallback `s || dflt`. -/
def jsOr (s dflt : String) : String := if s = "" then dflt else s

/-- `o || dflt` where `o` may be `undefined` (absent). -/
def jsOrOpt (o : Option String) (dflt : String) : String :=
  match o with
  | none => dflt
  | some s => jsOr s dflt

/-- The environment variables read when building the Python backend request. -/
structure Env where
  USE_AI_EVALUATION : Option String
  AI_MAX_RETRIES : Option String
deriving DecidableEq, Repr

/-- JavaScript truthiness of a possibly-absent environment string:
`undefined` and the empty string are falsy. -/
def jsTruthy (o : Option String) : Bool :=
  match o with
  | none => false
  | some s => !(s == "")

/-- A model of JavaScript `parseInt` in base 10: skip leading whitespace, read
an optional sign and then leading decimal digits; `none` models `NaN`. -/
def jsParseInt (s : String) : Option Int :=
  let cs := s.toList.dropWhile fun c => c == ' ' || c == '\t' || c == '\n' || c == '\r'
  let signRest : Bool × List Char :=
    match cs with
    | '-' :: t => (true, t)
    | '+' :: t => (false, t)
    | _ => (false, cs)
  let ds := signRest.2.takeWhile Char.isDigit
  if ds.isEmpty then none
  else
    let n : Nat := ds.foldl (fun acc c => acc * 10 + (c.toNat - 48)) 0
    some (if signRest.1 then -(n : Int) else (n : Int))

/-- The JSON body sent to the Python backend (`pythonRequest` in `ai.ts`).
`max_retries = none` models `NaN` from a garbage `AI_MAX_RETRIES` value. -/
structure PythonRequest where
  title : String
  description : String
  code : String
  mode : String
  use_evaluation : Bool
  max_retries : Option Int
  user_id : String
deriving DecidableEq, Repr

/-- Construction of `pythonRequest` in `ai.ts` lines 46-56:
`use_evaluation` is true exactly when the env var is the string "true",
and `max_retries` defaults to 1 whenever `AI_MAX_RETRIES` is unset or empty. -/
def mkPythonRequest (env : Env) (d : AssistData) (uid : String) : PythonRequest :=
  { title := d.problem_title
    description := d.problem_description
    code := jsOr d.user_code ""
    mode := if d.action = "hint" then "hint" else "code"
    use_evaluation := env.USE_AI_EVALUATION == some "true"
    max_retries :=
      if jsTruthy env.AI_MAX_RETRIES then jsParseInt (env.AI_MAX_RETRIES.getD "")
      else some 1
    user_id := uid }

/-- The hardcoded overall timeout from `setTimeout(() => controller.abort(), 30000)`. -/
def overallTimeoutMs : Nat := 30000

/-- The JSON body returned by the Python backend on `/process`.
Optional fields model keys the backend may omit. -/
structure PyResult where
  success : Bool
  response : String
  pipeline : String
  evaluation_score : Option Rat
  attempts : Option Nat
  detail : Option String
deriving DecidableEq, Repr

/-- The possible outcomes of the `fetch` to the Python backend, absent a timeout:
the promise rejects (network failure), or it resolves with an `ok` flag, a
status code and a body whose JSON parse may itself fail. -/
inductive FetchResult where
  | throws (msg : String)
  | resolves (ok : Bool) (status : Nat) (body : Except String PyResult)
deriving Repr

/-- The `metadata` object of a successful `/assist` JSON response.
Optional fields are keys that a given branch of the handler omits.
(The nondeterministic `timestamp` key is not modelled.) -/
structure Metadata where
  action : String
  problem_title : String
  user_id : String
  pipeline : String
  evaluation_score : Option Rat
  attempts : Option Nat
  fallback_reason : Option String
deriving DecidableEq, Repr

/-- The HTTP response sent by the route, as status plus the JSON body keys that
the various branches of `ai.ts` may set (`none` = key absent from the body). -/
structure HttpResponse where
  status : Nat
  success : Option Bool
  response : Option String
  error : Option String
  message : Option String
  details : Option (List FieldIssue)
  metadata : Option Metadata
deriving DecidableEq, Repr

/-- Which upstream generators the handler actually contacted during a run. -/
structure CallLog where
  pythonCalled : Bool
  geminiCalled : Bool
deriving DecidableEq, Repr

/-- Outcome of the Gemini `model.generateContent` call. -/
inductive GeminiBehavior where
  | ok (text : String)
  | fail (msg : String)
deriving DecidableEq, Repr

/-- The primary (Python backend) leg of the handler, `ai.ts` lines 58-98:
if the call takes longer than the timeout the `AbortController` fires and the
`fetch` rejects with the runtime's abort error (whatever the upstream would
have produced is discarded); otherwise a rejection, a non-`ok` response, a
malformed JSON body, or `success:false` each throw, carrying the message the
`catch (pythonError)` block will observe. -/
def primaryResult (pythonTakesMs : Nat) (fetch : FetchResult) (abortMessage : String) :
    Except String PyResult :=
  if overallTimeoutMs < pythonTakesMs then .error abortMessage
  else
    match fetch with
    | .throws m => .error m
    | .resolves ok status body =>
      if ok then
        match body with
        | .error m => .error m
        | .ok r =>
          if r.success then .ok r
          else .error (jsOrOpt r.detail "Python backend processing failed")
      else .error ("Python backend responded with status: " ++ toString status)

/-- The fallback branch, `ai.ts` lines 100-157 plus the outer catch at 159-165:
a successful Gemini call answers 200 with pipeline "Gemini (fallback)" and a
`fallback_reason` (no `attempts`, no `evaluation_score` key); a failed Gemini
call reaches the outer catch, answering 500 with `error` and `message` keys. -/
def fallbackResponse (action problem_title user_id errMsg : String)
    (gemini : GeminiBehavior) : HttpResponse :=
  match gemini with
  | .ok text =>
    { status := 200, success := some true, response := some text,
      error := none, message := none, details := none,
      metadata := some
        { action := action, problem_title := problem_title, user_id := user_id,
          pipeline := "Gemini (fallback)", evaluation_score := none,
          attempts := none,
          fallback_reason := some (jsOr errMsg "Python backend unavailable") } }
  | .fail m =>
    { status := 500, success := none, response := none,
      error := some "Failed to generate AI response", message := some m,
      details := none, metadata := none }

/-- The 401 response produced by `requireAuth` in `middleware/clerk.ts`. -/
def unauthorizedResponse : HttpResponse :=
  { status := 401, success := none, response := none,
    error := some "Unauthorized", message := some "Valid authentication required",
    details := none, metadata := none }

/-- The 400 response of `ai.ts` lines 30-35 when `safeParse` fails: an error
label and the structured list of field-level issues. -/
def validationResponse (issues : List FieldIssue) : HttpResponse :=
  { status := 400, success := none, response := none,
    error := some "Invalid request", message := none,
    details := some issues, metadata := none }

/-- The 200 response of `ai.ts` lines 83-95 when the Python backend answered
with `success:true`: the backend text plus metadata forwarding the backend's
`pipeline`, `evaluation_score` and `attempts` keys; no `fallback_reason`. -/
def successResponse (d : AssistData) (uid : String) (r : PyResult) : HttpResponse :=
  { status := 200, success := some true, response := some r.response,
    error := none, message := none, details := none,
    metadata := some
      { action := d.action, problem_title := d.problem_title, user_id := uid,
        pipeline := r.pipeline, evaluation_score := r.evaluation_score,
        attempts := r.attempts, fallback_reason := none } }

/-- The full `POST /api/ai/assist` endpoint: `requireAuth`, then validation,
then the primary Python path with the 30s abort timer, then — only when the
primary path threw — the Gemini fallback. `geminiTakesMs` is the duration of
the Gemini call; no code path consults it because `model.generateContent` is
invoked without any abort signal or timer. The returned `CallLog` records
which upstream calls were made. -/
def assistHandler (auth : Option String) (b : RawBody) (pythonTakesMs : Nat)
    (fetch : FetchResult) (abortMessage : String) (geminiTakesMs : Nat)
    (gemini : GeminiBehavior) : HttpResponse × CallLog :=
  match auth with
  | none => (unauthorizedResponse, ⟨false, false⟩)
  | some uid =>
    match safeParse b with
    | .error issues => (validationResponse issues, ⟨false, false⟩)
    | .ok d =>
      match primaryResult pythonTakesMs fetch abortMessage with
      | .ok r => (successResponse d uid r, ⟨true, false⟩)
      | .error m =>
        (fallbackResponse d.action d.problem_title uid m gemini, ⟨true, true⟩)

/-- The primary path failed: timeout, rejected fetch, non-`ok` HTTP status,
malformed JSON body, or a `success:false` payload. These are exactly the
conditions making `primaryResult` an error. -/
def primaryFails (pythonTakesMs : Nat) (fetch : FetchResult) : Prop :=
  overallTimeoutMs < pythonTakesMs ∨
  (∃ m, fetch = .throws m) ∨
  (∃ st body, fetch = .resolves false st body) ∨
  (∃ st m, fetch = .resolves true st (.error m)) ∨
  (∃ st r, fetch = .resolves true st (.ok r) ∧ r.success = false)

/-- The acceptance condition exactly as the claim about the normalizer words it
(for refinement comparison with `safeParse`): the mode is one of hint/code and
title and description are non-empty strings. -/
def specAccepts (b : RawBody) : Prop :=
  (b.action = some (.str "hint") ∨ b.action = some (.str "code")) ∧
  (∃ s, b.problem_title = some (.str s) ∧ s ≠ "") ∧
  (∃ s, b.problem_description = some (.str s) ∧ s ≠ "")

/-- An optional body field is either absent or holds a string value. -/
def optStringOk (v : Option Json) : Prop :=
  v = none ∨ ∃ s, v = some (.str s)

/-- Substring test on character lists, used to state whether an error message
contains a given word. -/
def listInfix (needle : List Char) : List Char → Bool
  | [] => needle.isEmpty
  | c :: t => needle.isPrefixOf (c :: t) || listInfix needle t

/-- Whether `hay` contains `needle` as a substring. -/
def strContains (hay needle : String) : Bool := listInfix needle.toList hay.toList

/-- The message of the DOMException that Node's fetch rejects with when an
`AbortController` fires: this is what `pythonError.message` holds on timeout. -/
def abortedMsg : String := "This operation was aborted"

/-- Score produced by the evaluator: the holistic overall value and the
improvement advice carried into the next attempt. Modelled from the spec:
the Python backend evaluator is not part of the repository snapshot. -/
structure EvalScore where
  overall : Rat
  improvementAdvice : Option String
deriving DecidableEq, Repr

/-- Retry-controller configuration. Modelled from the spec: the Python backend
pipeline code is not part of the repository snapshot. -/
structure RetryConfig where
  useEvaluation : Bool
  maxAttempts : Nat
  threshold : Rat
deriving DecidableEq, Repr

/-- Modelled from the spec: the RetryController loop of the Python backend
(spec section 4.4), which is not part of the repository snapshot. `gen k fb`
is the generator output on attempt `k` with feedback `fb`; `ev t = none`
models disabled-or-failed evaluation of text `t`. `counter` is the current
attempt number and `fuel` the number of retries still allowed. Returns the
final text, the attempt counter, and the last score if any. -/
def retryFrom (gen : Nat → Option String → String) (ev : String → Option EvalScore)
    (useEval : Bool) (threshold : Rat) :
    Nat → Nat → Option String → String × Nat × Option EvalScore
  | counter, fuel, feedback =>
    let text := gen counter feedback
    if useEval then
      match ev text with
      | none => (text, counter, none)
      | some s =>
        if s.overall < threshold then
          match fuel with
          | 0 => (text, counter, some s)
          | n + 1 => retryFrom gen ev useEval threshold (counter + 1) n s.improvementAdvice
        else (text, counter, some s)
    else (text, counter, none)

/-- Modelled from the spec: one full run of the RetryController, starting at
attempt 1 with no feedback and `maxAttempts - 1` retries of budget. -/
def runRetry (cfg : RetryConfig) (gen : Nat → Option String → String)
    (ev : String → Option EvalScore) : String × Nat × Option EvalScore :=
  retryFrom gen ev cfg.useEvaluation cfg.threshold 1 (cfg.maxAttempts - 1) none

/-- Modelled from the spec: the default quality threshold of the Python
backend pipeline (spec section 4.5), not part of the repository snapshot. -/
def defaultScoreThreshold : Rat := 3

/-! ## Concrete sample inputs used by witnesses and counterexamples -/

/-- A well-formed request body. -/
def okBody : RawBody :=
  { action := some (.str "hint"), problem_title := some (.str "Two Sum"),
    problem_description := some (.str "Find indices of two numbers adding to target."),
    user_code := none, language := none }

/-- The data `safeParse` extracts from `okBody`. -/
def okData : AssistData :=
  { action := "hint", problem_title := "Two Sum",
    problem_description := "Find indices of two numbers adding to target.",
    user_code := "", language := "javascript" }

/-- A body whose enum and required string fields are fine but whose optional
`user_code` key holds a number instead of a string. -/
def numericCodeBody : RawBody :=
  { action := some (.str "hint"), problem_title := some (.str "Two Sum"),
    problem_description := some (.str "Find indices of two numbers adding to target."),
    user_code := some (.num 42), language := none }

/-- A body missing its required `problem_title` field. -/
def badBody : RawBody :=
  { action := some (.str "code"), problem_title := none,
    problem_description := some (.str "Reverse a linked list."),
    user_code := none, language := none }

/-- A successful Python backend payload. -/
def samplePy : PyResult :=
  { success := true, response := "Use a hash map keyed by the complement.",
    pipeline := "python-advanced", evaluation_score := some 4,
    attempts := some 1, detail := none }

/-- The metadata the fallback branch produces for `okBody` when the Python
fetch rejected with message "boom". -/
def fallbackMdExample : Metadata :=
  { action := "hint", problem_title := "Two Sum", user_id := "user_1",
    pipeline := "Gemini (fallback)", evaluation_score := none,
    attempts := none, fallback_reason := some "boom" }

/-! ## Helper lemmas -/

theorem primaryFails_iff_error (ms : Nat) (f : FetchResult) (am : String) :
    primaryFails ms f ↔ ∃ m, primaryResult ms f am = .error m := by
  unfold primaryFails primaryResult
  by_cases ht : overallTimeoutMs < ms
  · simp [ht]
  · simp only [ht, if_false, false_or]
    cases f with
    | throws m => simp
    | resolves ok st body =>
      cases ok with
      | false => simp
      | true =>
        cases body with
        | error m => simp
        | ok r =>
          cases hr : r.success with
          | false => simp [hr]; exact ⟨st, r, ⟨rfl, rfl⟩, hr⟩
          | true => simp [hr]

theorem primaryResult_ok_of_success (ms st : Nat) (r : PyResult) (am : String)
    (hms : ¬ overallTimeoutMs < ms) (hr : r.success = true) :
    primaryResult ms (.resolves true st (.ok r)) am = .ok r := by
  simp [primaryResult, hms, hr]

theorem checkEnum_ok_iff (path : String) (v : Option Json) (allowed : List String)
    (s : String) :
    checkEnumField path v allowed = .ok s ↔ v = some (.str s) ∧ s ∈ allowed := by
  unfold checkEnumField
  cases v with
  | none => simp
  | some j =>
    cases j with
    | str t =>
      by_cases h : t ∈ allowed
      · simp only [if_pos h, Except.ok.injEq, Option.some.injEq, Json.str.injEq]
        constructor
        · rintro rfl; exact ⟨rfl, h⟩
        · rintro ⟨rfl, _⟩; rfl
      · simp only [if_neg h]
        constructor
        · intro hfalse; exact absurd hfalse (by simp)
        · rintro ⟨heq, hmem⟩
          injection heq with heq
          injection heq with heq
          exact absurd (heq ▸ hmem) h
    | num n => simp
    | bool b => simp
    | null => simp

theorem string_length_zero_iff (s : String) : s.length = 0 ↔ s = "" := by
  constructor
  · intro h
    cases s with
    | mk data =>
      cases data with
      | nil => decide
      | cons c t => simp [String.length] at h
  · rintro rfl; rfl

theorem checkEnum_isOk_iff (path : String) (v : Option Json) (allowed : List String) :
    isOkE (checkEnumField path v allowed) = true ↔
      ∃ s, v = some (.str s) ∧ s ∈ allowed := by
  unfold checkEnumField
  cases v with
  | none => simp [isOkE]
  | some j =>
    cases j with
    | str t => by_cases h : t ∈ allowed <;> simp [isOkE, h]
    | num n => simp [isOkE]
    | bool b => simp [isOkE]
    | null => simp [isOkE]

theorem checkRequired_isOk_iff (path : String) (v : Option Json) :
    isOkE (checkRequiredString path v) = true ↔
      ∃ s, v = some (.str s) ∧ s ≠ "" := by
  unfold checkRequiredString
  cases v with
  | none => simp [isOkE]
  | some j =>
    cases j with
    | str t =>
      by_cases h : 1 ≤ t.length
      · have ht : t ≠ "" := by
          intro heq
          rw [heq] at h
          exact absurd h (by decide)
        simp [isOkE, h, ht]
      · have ht : t = "" := by
          rw [← string_length_zero_iff]
          omega
        subst ht
        simp [isOkE, h]
    | num n => simp [isOkE]
    | bool b => simp [isOkE]
    | null => simp [isOkE]

theorem checkOptional_isOk_iff (path : String) (v : Option Json) (dflt : String) :
    isOkE (checkOptionalString path v dflt) = true ↔ optStringOk v := by
  unfold checkOptionalString optStringOk
  cases v with
  | none => simp [isOkE]
  | some j => cases j <;> simp [isOkE]

theorem safeParse_isOk_decomp (b : RawBody) :
    isOkE (safeParse b) =
      (isOkE (checkEnumField "action" b.action ["hint", "code"]) &&
       isOkE (checkRequiredString "problem_title" b.problem_title) &&
       isOkE (checkRequiredString "problem_description" b.problem_description) &&
       isOkE (checkOptionalString "user_code" b.user_code "") &&
       isOkE (checkOptionalString "language" b.language "javascript")) := by
  unfold safeParse
  cases h1 : checkEnumField "action" b.action ["hint", "code"] <;>
  cases h2 : checkRequiredString "problem_title" b.problem_title <;>
  cases h3 : checkRequiredString "problem_description" b.problem_description <;>
  cases h4 : checkOptionalString "user_code" b.user_code "" <;>
  cases h5 : checkOptionalString "language" b.language "javascript" <;>
  simp [isOkE]

theorem enum_action_iff (v : Option Json) :
    (∃ s, v = some (.str s) ∧ s ∈ (["hint", "code"] : List String)) ↔
      (v = some (.str "hint") ∨ v = some (.str "code")) := by
  constructor
  · rintro ⟨s, rfl, hs⟩
    simp only [List.mem_cons, List.mem_singleton, List.not_mem_nil, or_false] at hs
    rcases hs with rfl | rfl
    · exact Or.inl rfl
    · exact Or.inr rfl
  · rintro (rfl | rfl)
    · exact ⟨"hint", rfl, by simp⟩
    · exact ⟨"code", rfl, by simp⟩

theorem safeParse_isOk_iff (b : RawBody) :
    isOkE (safeParse b) = true ↔
      (specAccepts b ∧ optStringOk b.user_code ∧ optStringOk b.language) := by
  rw [safeParse_isOk_decomp]
  simp only [Bool.and_eq_true]
  rw [checkEnum_isOk_iff, checkRequired_isOk_iff, checkRequired_isOk_iff,
    checkOptional_isOk_iff, checkOptional_isOk_iff]
  unfold specAccepts
  rw [enum_action_iff]
  tauto

theorem safeParse_ok_fields (b : RawBody) (d : AssistData) (h : safeParse b = .ok d) :
    checkEnumField "action" b.action ["hint", "code"] = .ok d.action ∧
    checkRequiredString "problem_title" b.problem_title = .ok d.problem_title ∧
    checkRequiredString "problem_description" b.problem_description
      = .ok d.problem_description ∧
    checkOptionalString "user_code" b.user_code "" = .ok d.user_code ∧
    checkOptionalString "language" b.language "javascript" = .ok d.language := by
  unfold safeParse at h
  revert h
  cases h1 : checkEnumField "action" b.action ["hint", "code"] <;>
  cases h2 : checkRequiredString "problem_title" b.problem_title <;>
  cases h3 : checkRequiredString "problem_description" b.problem_description <;>
  cases h4 : checkOptionalString "user_code" b.user_code "" <;>
  cases h5 : checkOptionalString "language" b.language "javascript" <;>
  intro h <;>
  first
    | exact Except.noConfusion h
    | (injection h with h
       subst h
       exact ⟨rfl, rfl, rfl, rfl, rfl⟩)

theorem safeParse_error_ne_nil (b : RawBody) (issues : List FieldIssue)
    (h : safeParse b = .error issues) : issues ≠ [] := by
  unfold safeParse at h
  revert h
  cases h1 : checkEnumField "action" b.action ["hint", "code"] <;>
  cases h2 : checkRequiredString "problem_title" b.problem_title <;>
  cases h3 : checkRequiredString "problem_description" b.problem_description <;>
  cases h4 : checkOptionalString "user_code" b.user_code "" <;>
  cases h5 : checkOptionalString "language" b.language "javascript" <;>
  intro h <;>
  first
    | exact Except.noConfusion h
    | (injection h with h
       subst h
       simp [issuesOf])

theorem assistHandler_ok (uid : String) (b : RawBody) (d : AssistData)
    (hparse : safeParse b = .ok d) (ms : Nat) (f : FetchResult) (am : String)
    (gms : Nat) (g : GeminiBehavior) (r : PyResult)
    (hp : primaryResult ms f am = .ok r) :
    assistHandler (some uid) b ms f am gms g = (successResponse d uid r, ⟨true, false⟩) := by
  unfold assistHandler
  rw [hparse, hp]

theorem assistHandler_err (uid : String) (b : RawBody) (d : AssistData)
    (hparse : safeParse b = .ok d) (ms : Nat) (f : FetchResult) (am : String)
    (gms : Nat) (g : GeminiBehavior) (m : String)
    (hp : primaryResult ms f am = .error m) :
    assistHandler (some uid) b ms f am gms g
      = (fallbackResponse d.action d.problem_title uid m g, ⟨true, true⟩) := by
  unfold assistHandler
  rw [hparse, hp]

theorem assistHandler_badparse (uid : String) (b : RawBody) (issues : List FieldIssue)
    (hparse : safeParse b = .error issues) (ms : Nat) (f : FetchResult) (am : String)
    (gms : Nat) (g : GeminiBehavior) :
    assistHandler (some uid) b ms f am gms g = (validationResponse issues, ⟨false, false⟩) := by
  unfold assistHandler
  rw [hparse]

theorem safeParse_okBody : safeParse okBody = .ok okData := by rfl

theorem retryFrom_counter_le (gen : Nat → Option String → String)
    (ev : String → Option EvalScore) (ue : Bool) (θ : Rat) :
    ∀ fuel counter fb, (retryFrom gen ev ue θ counter fuel fb).2.1 ≤ counter + fuel := by
  intro fuel
  induction fuel with
  | zero =>
    intro counter fb
    unfold retryFrom
    cases ue <;> simp only []
    · simp
    · cases ev (gen counter fb) with
      | none => simp
      | some s =>
        by_cases h : s.overall < θ <;> simp [h]
  | succ n ih =>
    intro counter fb
    unfold retryFrom
    cases ue <;> simp only []
    · simp
    · cases ev (gen counter fb) with
      | none => simp
      | some s =>
        by_cases h : s.overall < θ
        · simp only [if_pos h]
          calc (retryFrom gen ev true θ (counter + 1) n s.improvementAdvice).2.1
              ≤ (counter + 1) + n := ih (counter + 1) s.improvementAdvice
            _ = counter + (n + 1) := by omega
        · simp [h]

theorem retryFrom_no_eval (gen : Nat → Option String → String)
    (ev : String → Option EvalScore) (θ : Rat) (fuel counter : Nat)
    (fb : Option String) :
    retryFrom gen ev false θ counter fuel fb = (gen counter fb, counter, none) := by
  unfold retryFrom
  cases fuel <;> rfl

theorem retryFrom_all_low (gen : Nat → Option String → String)
    (ev : String → Option EvalScore) (θ : Rat)
    (hall : ∀ k fb, ∃ s, ev (gen k fb) = some s ∧ s.overall < θ) :
    ∀ fuel counter fb, ∃ fb2 s,
      retryFrom gen ev true θ counter fuel fb
        = (gen (counter + fuel) fb2, counter + fuel, some s) := by
  intro fuel
  induction fuel with
  | zero =>
    intro counter fb
    obtain ⟨s, hs, hlt⟩ := hall counter fb
    refine ⟨fb, s, ?_⟩
    unfold retryFrom
    simp [hs, hlt]
  | succ n ih =>
    intro counter fb
    obtain ⟨s, hs, hlt⟩ := hall counter fb
    obtain ⟨fb2, s2, hrec⟩ := ih (counter + 1) s.improvementAdvice
    refine ⟨fb2, s2, ?_⟩
    unfold retryFrom
    simp only [hs, if_pos hlt]
    rw [hrec]
    have : counter + 1 + n = counter + (n + 1) := by omega
    rw [this]
    simp

theorem retryFrom_first_pass (gen : Nat → Option String → String)
    (ev : String → Option EvalScore) (θ : Rat) (fuel counter : Nat)
    (fb : Option String) (s : EvalScore) (hs : ev (gen counter fb) = some s)
    (hge : ¬ s.overall < θ) :
    retryFrom gen ev true θ counter fuel fb = (gen counter fb, counter, some s) := by
  unfold retryFrom
  cases fuel <;> simp [hs, hge]

theorem retryFrom_first_unscored (gen : Nat → Option String → String)
    (ev : String → Option EvalScore) (θ : Rat) (fuel counter : Nat)
    (fb : Option String) (hs : ev (gen counter fb) = none) :
    retryFrom gen ev true θ counter fuel fb = (gen counter fb, counter, none) := by
  unfold retryFrom
  cases fuel <;> simp [hs]

/-! ## Claim theorems -/

/-- Claim C1: for every authenticated, validated assist request, the Gemini
fallback path runs if and only if the primary Python path failed — it rejected
(network failure or timeout abort), answered a non-`ok` HTTP status, returned a
malformed payload, or reported `success:false`; and when the primary path
succeeds, no evaluation score it carries — however low — ever triggers the
fallback. -/
theorem c1_fallback_iff_primary_failure (uid : String) (b : RawBody) (d : AssistData)
    (hparse : safeParse b = .ok d) (ms : Nat) (f : FetchResult) (am : String)
    (gms : Nat) (g : GeminiBehavior) :
    ((assistHandler (some uid) b ms f am gms g).2.geminiCalled = true ↔ primaryFails ms f)
    ∧ (∀ st r, f = .resolves true st (.ok r) → r.success = true →
        ¬ overallTimeoutMs < ms → ∀ q : Rat, r.evaluation_score = some q →
          (assistHandler (some uid) b ms f am gms g).2.geminiCalled = false) := by
  constructor
  · constructor
    · intro hcall
      cases hp : primaryResult ms f am with
      | ok r =>
        rw [assistHandler_ok uid b d hparse ms f am gms g r hp] at hcall
        exact absurd hcall (by simp [CallLog.geminiCalled])
      | error m =>
        exact (primaryFails_iff_error ms f am).mpr ⟨m, hp⟩
    · intro hfail
      obtain ⟨m, hm⟩ := (primaryFails_iff_error ms f am).mp hfail
      rw [assistHandler_err uid b d hparse ms f am gms g m hm]
  · rintro st r rfl hsucc hms q hscore
    rw [assistHandler_ok uid b d hparse ms (.resolves true st (.ok r)) am gms g r
      (primaryResult_ok_of_success ms st r am hms hsucc)]

/-- Claim C1 witness: with a primary fetch that rejects, the fallback runs. -/
theorem c1_fallback_iff_primary_failure_witness :
    (assistHandler (some "user_1") okBody 0 (.throws "ECONNREFUSED") abortedMsg 0
      (.ok "Try a hash map.")).2.geminiCalled = true := by
  have h := c1_fallback_iff_primary_failure "user_1" okBody okData safeParse_okBody 0
    (.throws "ECONNREFUSED") abortedMsg 0 (.ok "Try a hash map.")
  exact h.1.mpr (Or.inr (Or.inl ⟨"ECONNREFUSED", rfl⟩))

/-- Claim C3: the router applies one wall-clock timeout of 30000 ms to the
primary path only. When the primary call takes longer, the run is independent
of whatever the upstream would have produced (the in-flight call is aborted
and its partial result discarded), both generators have been contacted, the
run is independent of the Gemini call duration (no timeout on the fallback),
and the response is exactly the fallback response built from the abort error. -/
theorem c3_overall_timeout (uid : String) (b : RawBody) (d : AssistData)
    (hparse : safeParse b = .ok d) (ms : Nat) (hms : overallTimeoutMs < ms)
    (f f2 : FetchResult) (am : String) (gms gms2 : Nat) (g : GeminiBehavior) :
    overallTimeoutMs = 30000
    ∧ assistHandler (some uid) b ms f am gms g = assistHandler (some uid) b ms f2 am gms2 g
    ∧ (assistHandler (some uid) b ms f am gms g).2 = ⟨true, true⟩
    ∧ (assistHandler (some uid) b ms f am gms g).1
        = fallbackResponse d.action d.problem_title uid am g := by
  have he : ∀ f3 : FetchResult, primaryResult ms f3 am = .error am := by
    intro f3
    unfold primaryResult
    rw [if_pos hms]
  refine ⟨rfl, ?_, ?_, ?_⟩
  · rw [assistHandler_err uid b d hparse ms f am gms g am (he f),
      assistHandler_err uid b d hparse ms f2 am gms2 g am (he f2)]
  · rw [assistHandler_err uid b d hparse ms f am gms g am (he f)]
  · rw [assistHandler_err uid b d hparse ms f am gms g am (he f)]

/-- Claim C3 witness: at 30001 ms the run ignores the upstream body and the
Gemini duration. -/
theorem c3_overall_timeout_witness :
    assistHandler (some "user_1") okBody 30001 (.resolves true 200 (.ok samplePy))
        abortedMsg 0 (.ok "Fallback hint.")
      = assistHandler (some "user_1") okBody 30001 (.throws "never seen")
          abortedMsg 99999 (.ok "Fallback hint.") := by
  have h := c3_overall_timeout "user_1" okBody okData safeParse_okBody 30001 (by decide)
    (.resolves true 200 (.ok samplePy)) (.throws "never seen") abortedMsg 0 99999
    (.ok "Fallback hint.")
  exact h.2.1

/-- Claim C9: whenever the primary Python path fails in any way but the Gemini
call succeeds, the handler still answers HTTP 200 with `success:true`; the
degradation shows only in `metadata.pipeline = "Gemini (fallback)"` and a set
`fallback_reason`, and the response carries no `evaluation_score` and no
`attempts` key. -/
theorem c9_fallback_success_response (uid : String) (b : RawBody) (d : AssistData)
    (hparse : safeParse b = .ok d) (ms : Nat) (f : FetchResult) (am : String)
    (gms : Nat) (text : String) (hfail : primaryFails ms f) :
    ∃ reason,
      assistHandler (some uid) b ms f am gms (.ok text)
        = ({ status := 200, success := some true, response := some text,
             error := none, message := none, details := none,
             metadata := some
               { action := d.action, problem_title := d.problem_title,
                 user_id := uid, pipeline := "Gemini (fallback)",
                 evaluation_score := none, attempts := none,
                 fallback_reason := some reason } }, ⟨true, true⟩) := by
  obtain ⟨m, hm⟩ := (primaryFails_iff_error ms f am).mp hfail
  refine ⟨jsOr m "Python backend unavailable", ?_⟩
  rw [assistHandler_err uid b d hparse ms f am gms (.ok text) m hm]
  rfl

/-- Claim C9 witness: a 503 from the Python backend plus a Gemini success
yields a 200 response with fallback metadata. -/
theorem c9_fallback_success_response_witness :
    ∃ reason,
      assistHandler (some "user_1") okBody 7 (.resolves false 503 (.error "html body"))
          abortedMsg 0 (.ok "Fallback answer")
        = ({ status := 200, success := some true, response := some "Fallback answer",
             error := none, message := none, details := none,
             metadata := some
               { action := okData.action, problem_title := okData.problem_title,
                 user_id := "user_1", pipeline := "Gemini (fallback)",
                 evaluation_score := none, attempts := none,
                 fallback_reason := some reason } }, ⟨true, true⟩) :=
  c9_fallback_success_response "user_1" okBody okData safeParse_okBody 7
    (.resolves false 503 (.error "html body")) abortedMsg 0 "Fallback answer"
    (Or.inr (Or.inr (Or.inl ⟨503, .error "html body", rfl⟩)))

/-- Claim C10: a request with no resolvable user id is answered 401 by
`requireAuth` and neither the Python backend nor Gemini is contacted. -/
theorem c10_unauthenticated_request (b : RawBody) (ms : Nat) (f : FetchResult)
    (am : String) (gms : Nat) (g : GeminiBehavior) :
    assistHandler none b ms f am gms g = (unauthorizedResponse, ⟨false, false⟩)
    ∧ unauthorizedResponse.status = 401
    ∧ (assistHandler none b ms f am gms g).2.pythonCalled = false
    ∧ (assistHandler none b ms f am gms g).2.geminiCalled = false :=
  ⟨rfl, rfl, rfl, rfl⟩

/-- Claim C2 (against the spec-modelled retry controller): the attempts
counter never exceeds the configured maximum; with evaluation disabled, or
when the first score is absent or at-or-above threshold, exactly one attempt
is made (a retry needs a present score strictly below threshold); and when
every attempt scores below threshold, the run still returns — with
`attempts = maxAttempts` and the text generated on that final attempt. -/
theorem c2_retry_bounds (cfg : RetryConfig) (gen : Nat → Option String → String)
    (ev : String → Option EvalScore) (hmax : 1 ≤ cfg.maxAttempts) :
    (runRetry cfg gen ev).2.1 ≤ cfg.maxAttempts
    ∧ (cfg.useEvaluation = false → (runRetry cfg gen ev).2.1 = 1)
    ∧ (cfg.useEvaluation = true → ∀ s, ev (gen 1 none) = some s →
        ¬ s.overall < cfg.threshold → (runRetry cfg gen ev).2.1 = 1)
    ∧ (cfg.useEvaluation = true → ev (gen 1 none) = none →
        (runRetry cfg gen ev).2.1 = 1)
    ∧ (cfg.useEvaluation = true →
        (∀ k fb, ∃ s, ev (gen k fb) = some s ∧ s.overall < cfg.threshold) →
        (runRetry cfg gen ev).2.1 = cfg.maxAttempts
        ∧ ∃ fb, (runRetry cfg gen ev).1 = gen cfg.maxAttempts fb) := by
  unfold runRetry
  refine ⟨?_, ?_, ?_, ?_, ?_⟩
  · have h := retryFrom_counter_le gen ev cfg.useEvaluation cfg.threshold
      (cfg.maxAttempts - 1) 1 none
    omega
  · intro h0
    rw [h0, retryFrom_no_eval]
  · intro h1 s hs hge
    rw [h1, retryFrom_first_pass gen ev cfg.threshold (cfg.maxAttempts - 1) 1 none s hs hge]
  · intro h1 hs
    rw [h1, retryFrom_first_unscored gen ev cfg.threshold (cfg.maxAttempts - 1) 1 none hs]
  · intro h1 hall
    obtain ⟨fb2, s, hr⟩ := retryFrom_all_low gen ev cfg.threshold hall
      (cfg.maxAttempts - 1) 1 none
    have harg : 1 + (cfg.maxAttempts - 1) = cfg.maxAttempts := by omega
    rw [harg] at hr
    rw [h1, hr]
    exact ⟨rfl, fb2, rfl⟩

/-- Claim C2 witness: evaluation on, maximum 3 attempts, every attempt scoring
2 against threshold 3 — the run returns with exactly 3 attempts. -/
theorem c2_retry_bounds_witness :
    (runRetry ⟨true, 3, 3⟩ (fun k fb => "attempt answer")
      (fun t => some ⟨2, some "add complexity analysis"⟩)).2.1 = 3 := by
  have h := c2_retry_bounds ⟨true, 3, 3⟩ (fun k fb => "attempt answer")
    (fun t => some ⟨2, some "add complexity analysis"⟩) (by decide)
  exact (h.2.2.2.2 rfl
    (fun k fb => ⟨⟨2, some "add complexity analysis"⟩, rfl, by norm_num⟩)).1

/-- Claim C4 counterexample: a body whose mode is "hint" and whose title and
description are non-empty strings — so the claim says it is accepted — is
nevertheless rejected, because its optional `user_code` key holds a number. -/
theorem c4_counterexample :
    specAccepts numericCodeBody ∧ isOkE (safeParse numericCodeBody) = false := by
  constructor
  · exact ⟨Or.inl rfl, ⟨"Two Sum", rfl, by decide⟩,
      ⟨"Find indices of two numbers adding to target.", rfl, by decide⟩⟩
  · rfl

/-- Claim C4 (amended): the normalizer accepts exactly when the mode is one of
hint/code, title and description are non-empty strings, AND every present
optional field is a string; absent optional fields default to
`userCode = ""` and `language = "javascript"`; a failed validation yields the
400 response carrying a non-empty structured issue list, and neither
generator is contacted. -/
theorem c4_validation_amended :
    (∀ b, isOkE (safeParse b) = true ↔
       (specAccepts b ∧ optStringOk b.user_code ∧ optStringOk b.language))
    ∧ (∀ b d, safeParse b = .ok d →
         (b.user_code = none → d.user_code = "")
         ∧ (b.language = none → d.language = "javascript"))
    ∧ (∀ uid b issues ms f am gms g, safeParse b = .error issues →
         issues ≠ []
         ∧ assistHandler (some uid) b ms f am gms g
             = (validationResponse issues, ⟨false, false⟩)) := by
  refine ⟨safeParse_isOk_iff, ?_, ?_⟩
  · intro b d h
    obtain ⟨-, -, -, h4, h5⟩ := safeParse_ok_fields b d h
    constructor
    · intro hc
      rw [hc] at h4
      injection h4 with h4
      exact h4.symm
    · intro hl
      rw [hl] at h5
      injection h5 with h5
      exact h5.symm
  · intro uid b issues ms f am gms g h
    exact ⟨safeParse_error_ne_nil b issues h,
      assistHandler_badparse uid b issues h ms f am gms g⟩

/-- Claim C4 witness: a body with a missing title is rejected with a 400
response carrying the issue list, before any generator call. -/
theorem c4_validation_amended_witness :
    assistHandler (some "user_1") badBody 0 (.resolves true 200 (.ok samplePy))
        abortedMsg 0 (.ok "text")
      = (validationResponse [⟨.invalidType, "problem_title"⟩], ⟨false, false⟩) :=
  (c4_validation_amended.2.2 "user_1" badBody [⟨.invalidType, "problem_title"⟩] 0
    (.resolves true 200 (.ok samplePy)) abortedMsg 0 (.ok "text") rfl).2

/-- Claim C5 counterexample: with `USE_AI_EVALUATION = "true"` and
`AI_MAX_RETRIES` unset, the built request has evaluation on but
`max_retries = 1`, not 3 as the claim says the default should be. -/
theorem c5_counterexample :
    (mkPythonRequest ⟨some "true", none⟩ okData "user_1").use_evaluation = true
    ∧ (mkPythonRequest ⟨some "true", none⟩ okData "user_1").max_retries = some 1
    ∧ (mkPythonRequest ⟨some "true", none⟩ okData "user_1").max_retries ≠ some 3 :=
  ⟨rfl, rfl, by decide⟩

/-- Claim C5 (amended): `use_evaluation` defaults to false and the overall
timeout is 30000 ms; `max_retries` defaults to 1 regardless of whether
evaluation is enabled (the router sends 1 whenever `AI_MAX_RETRIES` is unset,
even with evaluation on); the score threshold default 3.0 is spec-modelled;
and an all-defaults request performs exactly one generation attempt. -/
theorem c5_config_defaults_amended :
    overallTimeoutMs = 30000
    ∧ defaultScoreThreshold = 3
    ∧ (∀ d uid, (mkPythonRequest ⟨none, none⟩ d uid).use_evaluation = false
         ∧ (mkPythonRequest ⟨none, none⟩ d uid).max_retries = some 1)
    ∧ (∀ ue d uid, (mkPythonRequest ⟨ue, none⟩ d uid).max_retries = some 1)
    ∧ (∀ gen ev n θ, (runRetry ⟨false, n, θ⟩ gen ev).2.1 = 1) := by
  refine ⟨rfl, rfl, fun d uid => ⟨rfl, rfl⟩, fun ue d uid => rfl, fun gen ev n θ => ?_⟩
  unfold runRetry
  rw [retryFrom_no_eval]

/-- Claim C6 counterexample: a run that fell back ends with metadata whose
`fallback_reason` is set but whose `attempts` key is absent — not equal to 1
as the claim states. -/
theorem c6_counterexample :
    (assistHandler (some "user_1") okBody 0 (.throws "boom") abortedMsg 0
        (.ok "Try a map.")).1.metadata.map Metadata.fallback_reason
      = some (some "boom")
    ∧ (assistHandler (some "user_1") okBody 0 (.throws "boom") abortedMsg 0
        (.ok "Try a map.")).1.metadata.map Metadata.attempts = some none
    ∧ some (none : Option Nat) ≠ some (some 1) :=
  ⟨rfl, rfl, by decide⟩

/-- Claim C6 (amended): every response whose metadata marks a fallback (its
`fallback_reason` key is set) carries no `attempts` key and no
`evaluation_score` key: the fallback performs a single unevaluated Gemini call
but reports neither an attempts count nor a score. -/
theorem c6_fallback_reports_no_attempts (auth : Option String) (b : RawBody) (ms : Nat)
    (f : FetchResult) (am : String) (gms : Nat) (g : GeminiBehavior) (md : Metadata)
    (hmd : (assistHandler auth b ms f am gms g).1.metadata = some md)
    (hfb : md.fallback_reason.isSome = true) :
    md.attempts = none ∧ md.evaluation_score = none := by
  cases auth with
  | none => exact Option.noConfusion hmd
  | some uid =>
    cases hsp : safeParse b with
    | error issues =>
      rw [assistHandler_badparse uid b issues hsp ms f am gms g] at hmd
      exact Option.noConfusion hmd
    | ok d =>
      cases hp : primaryResult ms f am with
      | ok r =>
        rw [assistHandler_ok uid b d hsp ms f am gms g r hp] at hmd
        injection hmd with hmd
        rw [← hmd] at hfb
        exact absurd hfb (by simp)
      | error m =>
        rw [assistHandler_err uid b d hsp ms f am gms g m hp] at hmd
        cases g with
        | ok text =>
          injection hmd with hmd
          rw [← hmd]
          exact ⟨rfl, rfl⟩
        | fail m2 => exact Option.noConfusion hmd

/-- Claim C6 witness: the concrete fallback metadata has no attempts and no
score. -/
theorem c6_fallback_reports_no_attempts_witness :
    fallbackMdExample.attempts = none ∧ fallbackMdExample.evaluation_score = none :=
  c6_fallback_reports_no_attempts (some "user_1") okBody 0 (.throws "boom") abortedMsg 0
    (.ok "Try a map.") fallbackMdExample rfl rfl

/-- Claim C7 counterexample: when the primary call exceeds the timeout, the
pipeline label is "Gemini (fallback)" — not "fallback" — and the
`fallback_reason` is the runtime abort message "This operation was aborted",
which does not contain "timeout". -/
theorem c7_counterexample :
    (assistHandler (some "user_1") okBody 40000 (.resolves true 200 (.error "pending"))
        abortedMsg 0 (.ok "Sort first.")).1.metadata.map Metadata.pipeline
      = some "Gemini (fallback)"
    ∧ ("Gemini (fallback)" : String) ≠ "fallback"
    ∧ (assistHandler (some "user_1") okBody 40000 (.resolves true 200 (.error "pending"))
        abortedMsg 0 (.ok "Sort first.")).1.metadata.map Metadata.fallback_reason
      = some (some abortedMsg)
    ∧ strContains abortedMsg "timeout" = false :=
  ⟨rfl, by decide, rfl, by decide⟩

/-- Claim C7 (amended): when the primary call exceeds the overall timeout and
the Gemini fallback succeeds, the response is a 200 with `success:true`,
pipeline label "Gemini (fallback)", and a `fallback_reason` equal to the
runtime abort-error message passed through verbatim (or the default
"Python backend unavailable" when that message is empty) — the handler adds
no wording of its own, so the reason need not contain "timeout". -/
theorem c7_timeout_fallback_amended (uid : String) (b : RawBody) (d : AssistData)
    (hparse : safeParse b = .ok d) (ms : Nat) (hms : overallTimeoutMs < ms)
    (f : FetchResult) (am : String) (gms : Nat) (text : String) :
    (assistHandler (some uid) b ms f am gms (.ok text)).1.status = 200
    ∧ (assistHandler (some uid) b ms f am gms (.ok text)).1.success = some true
    ∧ (assistHandler (some uid) b ms f am gms (.ok text)).1.metadata
        = some { action := d.action, problem_title := d.problem_title, user_id := uid,
                 pipeline := "Gemini (fallback)", evaluation_score := none,
                 attempts := none,
                 fallback_reason := some (jsOr am "Python backend unavailable") } := by
  have hp : primaryResult ms f am = .error am := by
    unfold primaryResult
    rw [if_pos hms]
  rw [assistHandler_err uid b d hparse ms f am gms (.ok text) am hp]
  exact ⟨rfl, rfl, rfl⟩

/-- Claim C7 witness: a 31-second primary call with a successful Gemini
fallback produces the 200 fallback response. -/
theorem c7_timeout_fallback_amended_witness :
    (assistHandler (some "user_1") okBody 31000 (.throws "never seen") abortedMsg 0
      (.ok "Guidance text.")).1.success = some true :=
  (c7_timeout_fallback_amended "user_1" okBody okData safeParse_okBody 31000 (by decide)
    (.throws "never seen") abortedMsg 0 "Guidance text.").2.1

/-- Claim C8 counterexample: when both the primary path and Gemini fail, the
response is a 500 whose body has no `success` key at all — in particular it
does not carry `success:false` as the claim states. -/
theorem c8_counterexample :
    (assistHandler (some "user_1") okBody 0 (.resolves false 503 (.error "html"))
        abortedMsg 0 (.fail "Gemini API error")).1.status = 500
    ∧ (assistHandler (some "user_1") okBody 0 (.resolves false 503 (.error "html"))
        abortedMsg 0 (.fail "Gemini API error")).1.success = none
    ∧ (none : Option Bool) ≠ some false :=
  ⟨rfl, rfl, by decide⟩

/-- Claim C8 (amended): the fallback is single-attempt and never falls back
further: for an authenticated validated request, the handler answers 500
exactly when the primary path failed and the single Gemini call also failed,
and in that case the body carries an error label and the Gemini error message
but no `success` key; this is the only way the handler produces a 5xx. -/
theorem c8_terminal_failure_amended (uid : String) (b : RawBody) (d : AssistData)
    (hparse : safeParse b = .ok d) (ms : Nat) (f : FetchResult) (am : String)
    (gms : Nat) (g : GeminiBehavior) :
    ((assistHandler (some uid) b ms f am gms g).1.status = 500 ↔
       (primaryFails ms f ∧ ∃ m, g = .fail m))
    ∧ (∀ m, g = .fail m → primaryFails ms f →
        (assistHandler (some uid) b ms f am gms g).1
          = { status := 500, success := none, response := none,
              error := some "Failed to generate AI response", message := some m,
              details := none, metadata := none }
        ∧ (assistHandler (some uid) b ms f am gms g).2 = ⟨true, true⟩) := by
  constructor
  · constructor
    · intro h500
      cases hp : primaryResult ms f am with
      | ok r =>
        rw [assistHandler_ok uid b d hparse ms f am gms g r hp] at h500
        exact absurd h500 (by simp [successResponse])
      | error m =>
        refine ⟨(primaryFails_iff_error ms f am).mpr ⟨m, hp⟩, ?_⟩
        cases g with
        | ok text =>
          rw [assistHandler_err uid b d hparse ms f am gms (.ok text) m hp] at h500
          exact absurd h500 (by simp [fallbackResponse])
        | fail m2 => exact ⟨m2, rfl⟩
    · rintro ⟨hfail, m, rfl⟩
      obtain ⟨m0, hm⟩ := (primaryFails_iff_error ms f am).mp hfail
      rw [assistHandler_err uid b d hparse ms f am gms (.fail m) m0 hm]
      rfl
  · rintro m rfl hfail
    obtain ⟨m0, hm⟩ := (primaryFails_iff_error ms f am).mp hfail
    rw [assistHandler_err uid b d hparse ms f am gms (.fail m) m0 hm]
    exact ⟨rfl, rfl⟩

/-- Claim C8 witness: primary down and Gemini failing yields the 500. -/
theorem c8_terminal_failure_amended_witness :
    (assistHandler (some "user_1") okBody 0 (.throws "backend down") abortedMsg 0
      (.fail "Gemini unavailable")).1.status = 500 := by
  have h := c8_terminal_failure_amended "user_1" okBody okData safeParse_okBody 0
    (.throws "backend down") abortedMsg 0 (.fail "Gemini unavailable")
  exact h.1.mpr ⟨Or.inr (Or.inl ⟨"backend down", rfl⟩), "Gemini unavailable", rfl⟩

end SensAI
